import Mathlib

/-!
Shallow embedding of the `Brooooooklyn/ssh` napi binding (src/client.rs,
src/keypair.rs, src/signature.rs) for checking its natural-language
specification.

External collaborators (the russh transport engine, the ssh-key crypto
crate, the filesystem and the SSH agent) are modelled as parameters:
abstract types together with environment records holding the outcome of
each external call.  Everything the repository's own code does — the
callback state machine of `ClientHandle`, the drain loop of `exec`, the
credential resolution of `authenticate_key_pair`, the parameter handling
of `generate_rsa`, the decode-then-verify logic of `verify_detached` —
is translated directly from the source.
-/

namespace Ssh

/-- Hash algorithms of the underlying ssh-key crate (`russh::keys::HashAlg`). -/
inductive HashAlg where
  | sha256
  | sha512
deriving DecidableEq, Repr

/-- The hash function used for signing with RSA keys (src/keypair.rs, `SignatureHash`). -/
inductive SignatureHash where
  | SHA2_256
  | SHA2_512
  | SHA1
deriving DecidableEq, Repr

/-- `From<SignatureHash> for Option<HashAlg>` (src/keypair.rs lines 20-28):
SHA1 is deprecated and maps to the default (`None`). -/
def signatureHashToHashAlg : SignatureHash → Option HashAlg
  | .SHA1 => none
  | .SHA2_256 => some .sha256
  | .SHA2_512 => some .sha512

/-- Abstract interface of the external ssh-key signature machinery, at the
boundary used by src/keypair.rs: derive a public key from a private one,
produce a detached signature (`PrivateKey::sign` with a namespace, a hash
algorithm and the bytes to sign), verify a decoded signature
(`PublicKey::verify` with a namespace), and the SSH wire encoding of
signatures (`SshSig::encode` / `SshSig::decode`, the latter fallible). -/
structure SigScheme (Priv Pub Sig : Type) where
  pubOf : Priv → Pub
  sign : Priv → String → HashAlg → List Nat → Except String Sig
  verify : Pub → String → List Nat → Sig → Bool
  encode : Sig → List Nat
  decode : List Nat → Option Sig

/-- `PublicKey` (src/keypair.rs lines 30-33): wraps an ssh-key public key. -/
structure PublicKey (Pub : Type) where
  inner : Pub
deriving DecidableEq, Repr

/-- `KeyPair` (src/keypair.rs lines 72-75): wraps an ssh-key private key. -/
structure KeyPair (Priv : Type) where
  inner : Priv
deriving DecidableEq, Repr

/-- `Signature` (src/signature.rs): wraps an `SshSig`. -/
structure Signature (Sig : Type) where
  inner : Sig
deriving DecidableEq, Repr

/-- `PublicKey::verify_detached` (src/keypair.rs lines 47-56): decode the
signature bytes; a decode failure returns `false`; otherwise verify with
the empty namespace and return whether verification succeeded. -/
def verify_detached (S : SigScheme Priv Pub Sig) (pk : PublicKey Pub)
    (data signatureBytes : List Nat) : Bool :=
  match S.decode signatureBytes with
  | none => false
  | some sig => S.verify pk.inner "" data sig

/-- `KeyPair::sign_detached` (src/keypair.rs lines 127-133): sign with the
empty namespace and SHA-256; a signing failure becomes an error. -/
def sign_detached (S : SigScheme Priv Pub Sig) (kp : KeyPair Priv)
    (toSign : List Nat) : Except String (Signature Sig) :=
  match S.sign kp.inner "" .sha256 toSign with
  | .error e => .error e
  | .ok s => .ok ⟨s⟩

/-- `KeyPair::clone_public_key` (src/keypair.rs lines 114-118). -/
def clone_public_key (S : SigScheme Priv Pub Sig) (kp : KeyPair Priv) :
    PublicKey Pub :=
  ⟨S.pubOf kp.inner⟩

/-- `PublicKey::set_algorithm` (src/keypair.rs lines 64-69): the body is
empty ("kept for backwards compatibility but is a no-op"); the key is
returned unchanged. -/
def set_algorithm (pk : PublicKey Pub) (_algorithm : SignatureHash) :
    PublicKey Pub :=
  pk

/-- Key algorithms passed to the external generator
(`russh::keys::Algorithm` as used by src/keypair.rs). -/
inductive Algorithm where
  | rsa (hash : Option HashAlg)
  | ed25519
deriving DecidableEq, Repr

/-- The `match bits` in `KeyPair::generate_rsa` (src/keypair.rs lines
90-94): 2048, 4096 and every other value all select `Rsa { hash: None }`. -/
def generate_rsa_algorithm (bits : Nat) : Algorithm :=
  match bits with
  | 2048 => .rsa none
  | 4096 => .rsa none
  | _ => .rsa none

/-- `KeyPair::generate_rsa` (src/keypair.rs lines 87-104), with the
external random key generation abstracted as `keygen`: pick the algorithm
from `bits`, generate, and wrap a generation failure in an error message.
The `signatureHash` argument is bound as `_signature_hash` in the source
and never read. -/
def generate_rsa (keygen : Algorithm → Except String Priv) (bits : Nat)
    (_signatureHash : SignatureHash) : Except String (KeyPair Priv) :=
  match keygen (generate_rsa_algorithm bits) with
  | .error e => .error ("Generate rsa keypair failed: " ++ e)
  | .ok k => .ok ⟨k⟩

/-- A concrete signature scheme used to instantiate the abstract interface
on closed inputs: a signature is the signer followed by the message, the
encoding is the identity, and verification is equality with the honest
signature. -/
def idealScheme : SigScheme Nat Nat (List Nat) where
  pubOf := id
  sign := fun sk _ns _h m => .ok (sk :: m)
  verify := fun pk _ns m sig => decide (sig = pk :: m)
  encode := id
  decode := some

/-- A variant of `idealScheme` whose decoder rejects every byte string,
exercising the malformed-signature path of `verify_detached`. -/
def rejectingDecodeScheme : SigScheme Nat Nat (List Nat) :=
  { idealScheme with decode := fun _ => none }

/-! ## The `ClientHandle` callback state machine (src/client.rs lines 117-163)

`ClientHandle` holds two optional externally registered callbacks,
`check_server_key` and `auth_banner` (threadsafe JS functions, modelled as
values of abstract types `α` and `β`).  The transport engine invokes the
`auth_banner` and `check_server_key` handler methods; what each external
callback would answer is carried by the event, since the callbacks
themselves are external code. -/

/-- The three shapes the external `check_server_key` callback's answer can
take (`Either3<bool, Promise<bool>, UnknownReturnValue>` in the source): a
plain boolean, a promise whose awaiting yields a boolean or an error, or a
value of no recognized shape. -/
inductive CheckRet where
  | val (b : Bool)
  | promise (p : Except Unit Bool)
  | unknown
deriving Repr

/-- `ClientHandle` (src/client.rs lines 117-120): the two optional
callback slots. -/
structure ClientHandle (α β : Type) where
  check_server_key : Option α
  auth_banner : Option β

/-- Which external callback an event of the state machine invoked. -/
inductive Inv where
  | banner
  | check
deriving DecidableEq, Repr

/-- `ClientHandle::auth_banner` (src/client.rs lines 126-135): if the
banner slot holds a callback, take it out and invoke it (fire-and-forget);
otherwise do nothing.  Returns the new handle and the list of external
invocations made. -/
def auth_banner_step (h : ClientHandle α β) (_banner : String) :
    ClientHandle α β × List Inv :=
  match h.auth_banner with
  | some _ => (⟨h.check_server_key, none⟩, [.banner])
  | none => (⟨h.check_server_key, none⟩, [])

/-- `ClientHandle::check_server_key` (src/client.rs lines 137-162).  The
banner slot is dropped first (whether or not a banner ever arrived).  If a
`check_server_key` callback is registered it is invoked; `callResult` is
what `call_async` produces: an error, or one of the three `CheckRet`
shapes.  On a successful call the slot is taken, then: a boolean answer is
the decision; a promise is awaited, its error propagating and its boolean
the decision; an unrecognized answer decides `false`.  With no callback
registered the decision is `true`.  Returns the outcome (new handle and
boolean decision, or the propagated error) and the invocations made. -/
def check_server_key_step (h : ClientHandle α β)
    (callResult : Except Unit CheckRet) :
    Except Unit (ClientHandle α β × Bool) × List Inv :=
  match h.check_server_key with
  | some _ =>
    match callResult with
    | .error e => (.error e, [.check])
    | .ok ret =>
      match ret with
      | .val b => (.ok (⟨none, none⟩, b), [.check])
      | .promise (.error e) => (.error e, [.check])
      | .promise (.ok b) => (.ok (⟨none, none⟩, b), [.check])
      | .unknown => (.ok (⟨none, none⟩, false), [.check])
  | none => (.ok (⟨none, none⟩, true), [])

/-- An event delivered to the handler by the transport engine: a banner
notification, or a host-key check carrying what the external callback
would answer. -/
inductive HandlerEvent where
  | banner (text : String)
  | checkKey (callResult : Except Unit CheckRet)

/-- Run the handler over a sequence of transport events, collecting the
external invocations in order.  An error from `check_server_key` aborts
the connection attempt, so the run stops there. -/
def runHandle (h : ClientHandle α β) : List HandlerEvent → List Inv
  | [] => []
  | .banner t :: rest =>
    let s := auth_banner_step h t
    s.2 ++ runHandle s.1 rest
  | .checkKey r :: rest =>
    let s := check_server_key_step h r
    match s.1 with
    | .error _ => s.2
    | .ok (h2, _) => s.2 ++ runHandle h2 rest

/-! ## `Client::exec` (src/client.rs lines 262-283) -/

/-- Channel messages (`russh::ChannelMsg` variants relevant to the drain
loop; the loop matches `Data` and `ExitStatus` and ignores the rest with a
wildcard arm). -/
inductive ChannelMsg where
  | data (payload : List Nat)
  | extendedData (payload : List Nat) (ext : Nat)
  | eof
  | close
  | exitStatus (status : Nat)
  | exitSignal (signal : String)
  | success
  | windowAdjusted (newSize : Nat)
  | xonXoff (clientCanDo : Bool)
deriving DecidableEq, Repr

/-- `ExecOutput` (src/client.rs lines 344-348). -/
structure ExecOutput where
  status : Nat
  output : List Nat
deriving DecidableEq, Repr

/-- The `while let Some(msg) = channel.wait()` drain loop of `Client::exec`
(src/client.rs lines 266-278): append `Data` payloads to `output`,
overwrite `status` with each `ExitStatus`, ignore everything else. -/
def execLoop : List ChannelMsg → List Nat → Nat → ExecOutput
  | [], output, status => ⟨status, output⟩
  | .data d :: rest, output, status => execLoop rest (output ++ d) status
  | .exitStatus s :: rest, output, _ => execLoop rest output s
  | _ :: rest, output, status => execLoop rest output status

/-- `Client::exec` after the channel is open and the command requested:
drain the message stream with `output` empty and `status` zero
(src/client.rs lines 266-267). -/
def execDrain (msgs : List ChannelMsg) : ExecOutput :=
  execLoop msgs [] 0

/-- Spec-side view: the payload of a `Data` message. -/
def dataPayload : ChannelMsg → Option (List Nat)
  | .data d => some d
  | _ => none

/-- Spec-side view: the concatenation of all `Data` payloads in arrival
order. -/
def specOutput (msgs : List ChannelMsg) : List Nat :=
  (msgs.filterMap dataPayload).flatten

/-- Spec-side view: the value carried by an `ExitStatus` message. -/
def exitStatusOf : ChannelMsg → Option Nat
  | .exitStatus s => some s
  | _ => none

/-- Spec-side view: the most recently received exit status, defaulting to
zero when none was ever received. -/
def specStatus (msgs : List ChannelMsg) : Nat :=
  ((msgs.filterMap exitStatusOf).getLast?).getD 0

/-! ## `Client::authenticate_key_pair` (src/client.rs lines 220-260)

Filesystem paths are modelled as lists of components, so that the
`home.join(ssh_dir).join("id_rsa")` construction is explicit.  The
external `load_secret_key` (russh-keys, called with passphrase `None`) and
`authenticate_publickey` (the transport) are environment parameters. -/

/-- The `Either3<String, &KeyPair, Undefined>` argument of
`authenticate_key_pair`: a path to a private key file, an
already-constructed key pair, or nothing (use the default identity). -/
inductive KeyInput (Priv : Type) where
  | path (p : List String)
  | keypair (kp : KeyPair Priv)
  | undefined

/-- Ways the external `load_secret_key(path, None)` call can fail, per the
spec of the key-file loader: the file is missing, its contents do not
decode as a key, or the key is encrypted and no passphrase was given. -/
inductive LoadError where
  | missing
  | decodeFailure
  | encrypted
deriving DecidableEq, Repr

/-- Errors `authenticate_key_pair` can return: no home directory found
(src/client.rs line 237), a key-file load failure (lines 230-231 and
251-252), or a transport-level authentication failure. -/
inductive AuthError where
  | noHomeDirectory
  | loadFailed (e : LoadError)
  | transport (e : String)
deriving DecidableEq, Repr

/-- The environment of `authenticate_key_pair`: the platform flag (`cfg
windows` selects `ssh` over `.ssh`), the outcome of `dirs::home_dir()`,
the external key-file loader with no passphrase, and the transport's
public-key authentication returning the server's boolean verdict or a
transport error. -/
structure AuthEnv (Priv : Type) where
  windows : Bool
  home : Option (List String)
  load_secret_key : List String → Except LoadError Priv
  authenticate_publickey : Priv → Except String Bool

/-- The platform ssh directory name (src/client.rs lines 239-248): `ssh`
on Windows, `.ssh` elsewhere. -/
def sshDirName (windows : Bool) : String :=
  if windows then "ssh" else ".ssh"

/-- The default identity path of the `Undefined` variant (src/client.rs
lines 234-250): the home directory joined with the platform ssh directory
joined with `id_rsa`. -/
def defaultKeyPath (windows : Bool) (home : List String) : List String :=
  home ++ [sshDirName windows, "id_rsa"]

/-- `Client::authenticate_key_pair` (src/client.rs lines 224-260): resolve
the three input variants to a key pair — a load or resolution failure is
an error — then ask the transport to authenticate. -/
def authenticate_key_pair (env : AuthEnv Priv) (_user : String)
    (key : KeyInput Priv) : Except AuthError Bool :=
  match key with
  | .path p =>
    match env.load_secret_key p with
    | .error e => .error (.loadFailed e)
    | .ok k =>
      match env.authenticate_publickey k with
      | .error e => .error (.transport e)
      | .ok b => .ok b
  | .keypair kp =>
    match env.authenticate_publickey kp.inner with
    | .error e => .error (.transport e)
    | .ok b => .ok b
  | .undefined =>
    match env.home with
    | none => .error .noHomeDirectory
    | some h =>
      match env.load_secret_key (defaultKeyPath env.windows h) with
      | .error e => .error (.loadFailed e)
      | .ok k =>
        match env.authenticate_publickey k with
        | .error e => .error (.transport e)
        | .ok b => .ok b

/-! ## `connect` (src/client.rs lines 171-191) -/

/-- The externally observable connection steps of `connect`: the SSH-agent
connection taken from the process environment
(`AgentClient::connect_env()`), and the transport connection
(`client::connect`). -/
inductive ConnectAction where
  | agentConnect
  | transportConnect
deriving DecidableEq, Repr

/-- `Config` (src/client.rs lines 110-115): optional client configuration
(opaque here, type `γ`) and the two optional callbacks. -/
structure Config (γ α β : Type) where
  client : Option γ
  check_server_key : Option α
  auth_banner : Option β

/-- The model of a connected `Client` (src/client.rs lines 165-169): the
transport handle and the agent connection, the latter stored in the unused
`_agent` field. -/
structure Client (H A : Type) where
  handle : H
  agent : A

/-- The environment of `connect`: the outcome of the agent connection
attempt, and the transport connection as a function of the (possibly
defaulted) client configuration, the address, and the handler built from
the config's callbacks. -/
structure ConnectEnv (γ α β H A : Type) where
  agent : Except String A
  transport : Option γ → String → ClientHandle α β → Except String H

/-- `connect` (src/client.rs lines 172-191): extract the client config and
the two callbacks from `config`, connect to the SSH agent from the
environment — a failure there is returned as an error — then open the
transport connection with a `ClientHandle` holding the callbacks.  Also
returns the trace of connection steps attempted, in order. -/
def connect (env : ConnectEnv γ α β H A) (addr : String)
    (config : Option (Config γ α β)) :
    Except String (Client H A) × List ConnectAction :=
  let clientConfig := config.bind (·.client)
  let check_server_key := config.bind (·.check_server_key)
  let auth_banner := config.bind (·.auth_banner)
  match env.agent with
  | .error e => (.error e, [.agentConnect])
  | .ok agent =>
    match env.transport clientConfig addr ⟨check_server_key, auth_banner⟩ with
    | .error e => (.error e, [.agentConnect, .transportConnect])
    | .ok h => (.ok ⟨h, agent⟩, [.agentConnect, .transportConnect])

/-! ## Concrete environments used to evaluate the theorems on closed inputs -/

/-- An authentication environment with no home directory. -/
def authEnvNoHome : AuthEnv Unit where
  windows := false
  home := none
  load_secret_key := fun _ => .error .missing
  authenticate_publickey := fun _ => .ok true

/-- An authentication environment whose default identity file exists but
is encrypted, so loading it with no passphrase fails. -/
def authEnvEncryptedKey : AuthEnv Unit where
  windows := false
  home := some ["home", "alice"]
  load_secret_key := fun _ => .error .encrypted
  authenticate_publickey := fun _ => .ok true

/-- A connection environment in which the SSH-agent connection fails and
the transport would succeed. -/
def failingAgentEnv : ConnectEnv Unit Unit Unit Unit Unit where
  agent := .error "no agent"
  transport := fun _ _ _ => .ok ()

/-! ## Helper lemmas -/

/-- The default of the last element of a cons: the head becomes the new
fallback. -/
theorem getLast_getD_cons (a st : Nat) (l : List Nat) :
    ((a :: l).getLast?).getD st = (l.getLast?).getD a := by
  rw [← List.getLastD_eq_getLast?, ← List.getLastD_eq_getLast?]
  exact List.getLastD_cons st a l

/-- Unfolding of the `exec` drain loop against the spec-side views: the
final status is the last exit status received (with the running status as
fallback), and the final output is the accumulator followed by all data
payloads in order. -/
theorem execLoop_spec (msgs : List ChannelMsg) :
    ∀ (out : List Nat) (st : Nat),
      execLoop msgs out st =
        ⟨((msgs.filterMap exitStatusOf).getLast?).getD st,
          out ++ specOutput msgs⟩ := by
  induction msgs with
  | nil => intro out st; simp [execLoop, specOutput]
  | cons m rest ih =>
    intro out st
    cases m with
    | data d =>
      simp only [execLoop, ih (out ++ d) st, specOutput, List.filterMap_cons,
        exitStatusOf, dataPayload, List.flatten_cons, List.append_assoc]
    | exitStatus s =>
      simp only [execLoop, ih out s, specOutput, List.filterMap_cons,
        exitStatusOf, dataPayload, getLast_getD_cons]
    | extendedData p e =>
      simp only [execLoop, ih out st, specOutput, List.filterMap_cons,
        exitStatusOf, dataPayload]
    | eof =>
      simp only [execLoop, ih out st, specOutput, List.filterMap_cons,
        exitStatusOf, dataPayload]
    | close =>
      simp only [execLoop, ih out st, specOutput, List.filterMap_cons,
        exitStatusOf, dataPayload]
    | exitSignal sg =>
      simp only [execLoop, ih out st, specOutput, List.filterMap_cons,
        exitStatusOf, dataPayload]
    | success =>
      simp only [execLoop, ih out st, specOutput, List.filterMap_cons,
        exitStatusOf, dataPayload]
    | windowAdjusted n =>
      simp only [execLoop, ih out st, specOutput, List.filterMap_cons,
        exitStatusOf, dataPayload]
    | xonXoff b =>
      simp only [execLoop, ih out st, specOutput, List.filterMap_cons,
        exitStatusOf, dataPayload]

/-- The invocation trace of a handler run is a sublist of: one banner
invocation when the banner slot is occupied, then one host-key invocation
when the check slot is occupied. -/
theorem runHandle_sublist {α β : Type} (events : List HandlerEvent) :
    ∀ h : ClientHandle α β,
      (runHandle h events).Sublist
        ((if h.auth_banner.isSome then [Inv.banner] else []) ++
          (if h.check_server_key.isSome then [Inv.check] else [])) := by
  induction events with
  | nil => intro h; simp [runHandle]
  | cons e rest ih =>
    intro h
    obtain ⟨ck, ab⟩ := h
    cases e with
    | banner t =>
      cases ab with
      | none =>
        simpa [runHandle, auth_banner_step] using ih ⟨ck, none⟩
      | some cb =>
        simpa [runHandle, auth_banner_step] using
          List.Sublist.cons₂ Inv.banner (ih ⟨ck, none⟩)
    | checkKey r =>
      cases ck with
      | none =>
        have h0 : runHandle (⟨none, none⟩ : ClientHandle α β) rest = [] :=
          List.sublist_nil.mp (by simpa using ih ⟨none, none⟩)
        simp [runHandle, check_server_key_step, h0]
      | some c =>
        have h0 : runHandle (⟨none, none⟩ : ClientHandle α β) rest = [] :=
          List.sublist_nil.mp (by simpa using ih ⟨none, none⟩)
        rcases r with e | ret
        · simp [runHandle, check_server_key_step]
        · rcases ret with b | p | _
          · simp [runHandle, check_server_key_step, h0]
          · rcases p with e | b
            · simp [runHandle, check_server_key_step]
            · simp [runHandle, check_server_key_step, h0]
          · simp [runHandle, check_server_key_step, h0]

/-! ## Claim theorems -/

/-- C1: the host-key trust decision of `check_server_key` follows the
policy: with no registered handler the decision is accept (`true`); a
boolean answer from the handler is the decision; a deferred computation's
awaited boolean is the decision; an answer of no recognized boolean shape
decides reject (`false`). -/
theorem c1_check_server_key_policy {α β : Type} (h : ClientHandle α β) :
    (h.check_server_key = none →
      ∀ r, (check_server_key_step h r).1 =
        .ok ((⟨none, none⟩ : ClientHandle α β), true)) ∧
    (∀ c, h.check_server_key = some c →
      (∀ b, (check_server_key_step h (.ok (.val b))).1 =
        .ok ((⟨none, none⟩ : ClientHandle α β), b)) ∧
      (∀ b, (check_server_key_step h (.ok (.promise (.ok b)))).1 =
        .ok ((⟨none, none⟩ : ClientHandle α β), b)) ∧
      (check_server_key_step h (.ok .unknown)).1 =
        .ok ((⟨none, none⟩ : ClientHandle α β), false)) := by
  obtain ⟨ck, ab⟩ := h
  cases ck <;> simp [check_server_key_step]

/-- Witness for C1: the policy evaluated on concrete handles — no handler
accepts, a boolean answer is returned as is, a resolved deferred boolean
is returned as is, and an unrecognized answer rejects. -/
theorem c1_witness :
    (check_server_key_step (⟨none, some ()⟩ : ClientHandle Unit Unit)
      (.ok .unknown)).1 = .ok ((⟨none, none⟩ : ClientHandle Unit Unit), true) ∧
    (check_server_key_step (⟨some (), some ()⟩ : ClientHandle Unit Unit)
      (.ok (.val false))).1 =
      .ok ((⟨none, none⟩ : ClientHandle Unit Unit), false) ∧
    (check_server_key_step (⟨some (), none⟩ : ClientHandle Unit Unit)
      (.ok (.promise (.ok true)))).1 =
      .ok ((⟨none, none⟩ : ClientHandle Unit Unit), true) ∧
    (check_server_key_step (⟨some (), some ()⟩ : ClientHandle Unit Unit)
      (.ok .unknown)).1 =
      .ok ((⟨none, none⟩ : ClientHandle Unit Unit), false) :=
  ⟨(c1_check_server_key_policy ⟨none, some ()⟩).1 rfl (.ok .unknown),
    ((c1_check_server_key_policy ⟨some (), some ()⟩).2 () rfl).1 false,
    ((c1_check_server_key_policy ⟨some (), none⟩).2 () rfl).2.1 true,
    ((c1_check_server_key_policy ⟨some (), some ()⟩).2 () rfl).2.2⟩

/-- C3: over any sequence of transport events, the external banner
callback and the external host-key callback are each invoked at most once,
and the invocation trace is a sublist of `[banner, check]`, so whenever
both occur the banner invocation strictly precedes the host-key
invocation. -/
theorem c3_banner_before_check_at_most_once {α β : Type}
    (h : ClientHandle α β) (events : List HandlerEvent) :
    (runHandle h events).Sublist [Inv.banner, Inv.check] ∧
    (runHandle h events).count Inv.banner ≤ 1 ∧
    (runHandle h events).count Inv.check ≤ 1 := by
  have hs := runHandle_sublist events h
  have hmain : (runHandle h events).Sublist [Inv.banner, Inv.check] := by
    refine hs.trans ?_
    rcases h.auth_banner.isSome <;> rcases h.check_server_key.isSome <;>
      simp_all
  refine ⟨hmain, ?_, ?_⟩
  · simpa using hmain.count_le Inv.banner
  · simpa using hmain.count_le Inv.check

/-- C4: whenever `check_server_key` completes with a decision, the
resulting handle has both callback slots empty: the banner handler is
released at the start of the check even if no banner was ever delivered,
and the host-key handler is released once the decision is obtained,
whatever the decision was. -/
theorem c4_both_slots_released {α β : Type} (h : ClientHandle α β)
    (r : Except Unit CheckRet) (h2 : ClientHandle α β) (b : Bool)
    (hok : (check_server_key_step h r).1 = .ok (h2, b)) :
    h2.auth_banner = none ∧ h2.check_server_key = none := by
  obtain ⟨ck, ab⟩ := h
  cases ck with
  | none =>
    simp [check_server_key_step] at hok
    simp [← hok.1]
  | some c =>
    rcases r with e | ret
    · simp [check_server_key_step] at hok
    · rcases ret with b2 | p | _
      · simp [check_server_key_step] at hok
        simp [← hok.1]
      · rcases p with e | b2
        · simp [check_server_key_step] at hok
        · simp [check_server_key_step] at hok
          simp [← hok.1]
      · simp [check_server_key_step] at hok
        simp [← hok.1]

/-- Witness for C4: on a handle with both callbacks registered and a
boolean answer, the resulting handle has both slots empty. -/
theorem c4_witness :
    ((⟨none, none⟩ : ClientHandle Unit Unit).auth_banner = none ∧
      (⟨none, none⟩ : ClientHandle Unit Unit).check_server_key = none) :=
  c4_both_slots_released (⟨some (), some ()⟩ : ClientHandle Unit Unit)
    (.ok (.val true)) ⟨none, none⟩ true rfl

/-- C2: for every sequence of channel messages ending in end-of-stream,
the drain loop of `exec` returns as output the concatenation of all `Data`
payloads in arrival order and as status the most recently received
`ExitStatus` value, ignoring all other message kinds, with status zero
when no `ExitStatus` was ever received. -/
theorem c2_exec_drain (msgs : List ChannelMsg) :
    execDrain msgs = ⟨specStatus msgs, specOutput msgs⟩ := by
  simpa [execDrain, specStatus] using execLoop_spec msgs [] 0

/-- C5: every failure of `authenticate_key_pair` to resolve a usable
credential — no home directory in the default variant, or a key-file load
failure (missing file, decode failure, encrypted key with no passphrase)
in the path and default variants — is reported as an error, never as a
`false` authentication result; and the default variant's key path is the
home directory joined with the platform ssh directory and the fixed
filename `id_rsa`. -/
theorem c5_resolution_failures_are_errors {Priv : Type} (env : AuthEnv Priv)
    (user : String) :
    (env.home = none →
      authenticate_key_pair env user .undefined = .error .noHomeDirectory) ∧
    (∀ p e, env.load_secret_key p = .error e →
      authenticate_key_pair env user (.path p) = .error (.loadFailed e)) ∧
    (∀ h e, env.home = some h →
      env.load_secret_key (defaultKeyPath env.windows h) = .error e →
      authenticate_key_pair env user .undefined = .error (.loadFailed e)) ∧
    (∀ h, defaultKeyPath env.windows h =
      h ++ [if env.windows then "ssh" else ".ssh", "id_rsa"]) := by
  refine ⟨fun hh => ?_, fun p e he => ?_, fun h e hh he => ?_, fun h => ?_⟩
  · simp [authenticate_key_pair, hh]
  · simp [authenticate_key_pair, he]
  · simp [authenticate_key_pair, hh, he]
  · simp [defaultKeyPath, sshDirName]

/-- Witness for C5: with no home directory the default variant errors;
with a loader that reports the file missing the path variant errors; with
an encrypted default identity file the default variant errors; and the
default path under `/home/alice` is `/home/alice/.ssh/id_rsa`. -/
theorem c5_witness :
    authenticate_key_pair authEnvNoHome "alice" .undefined =
      .error .noHomeDirectory ∧
    authenticate_key_pair authEnvNoHome "alice" (.path ["key"]) =
      .error (.loadFailed .missing) ∧
    authenticate_key_pair authEnvEncryptedKey "alice" .undefined =
      .error (.loadFailed .encrypted) ∧
    defaultKeyPath authEnvEncryptedKey.windows ["home", "alice"] =
      ["home", "alice", ".ssh", "id_rsa"] :=
  ⟨(c5_resolution_failures_are_errors authEnvNoHome "alice").1 rfl,
    (c5_resolution_failures_are_errors authEnvNoHome "alice").2.1
      ["key"] .missing rfl,
    (c5_resolution_failures_are_errors authEnvEncryptedKey "alice").2.2.1
      ["home", "alice"] .encrypted rfl rfl,
    (c5_resolution_failures_are_errors authEnvEncryptedKey "alice").2.2.2
      ["home", "alice"]⟩

/-- C6: for a signature scheme whose primitive operations are correct
(honest signatures verify, the wire encoding round-trips and is canonical,
and verification accepts only the honest signature of the signed message),
signing with `sign_detached` and verifying with `verify_detached` against
the public key from `clone_public_key` yields `true`, while verification
of an altered message against the same signature bytes, or of the original
message against altered signature bytes, yields `false`. -/
theorem c6_sign_verify_roundtrip {Priv Pub Sig : Type}
    (S : SigScheme Priv Pub Sig)
    (hCorrect : ∀ sk ns hg m sig, S.sign sk ns hg m = .ok sig →
      S.verify (S.pubOf sk) ns m sig = true)
    (hDecEnc : ∀ sig, S.decode (S.encode sig) = some sig)
    (hCanon : ∀ bs sig, S.decode bs = some sig → bs = S.encode sig)
    (hUnique : ∀ sk ns hg m sig sig2, S.sign sk ns hg m = .ok sig →
      sig2 ≠ sig → S.verify (S.pubOf sk) ns m sig2 = false)
    (hBind : ∀ sk ns hg m sig m2, S.sign sk ns hg m = .ok sig →
      m2 ≠ m → S.verify (S.pubOf sk) ns m2 sig = false)
    (kp : KeyPair Priv) (m : List Nat) (sigObj : Signature Sig)
    (hsig : sign_detached S kp m = .ok sigObj) :
    verify_detached S (clone_public_key S kp) m (S.encode sigObj.inner) =
      true ∧
    (∀ m2, m2 ≠ m →
      verify_detached S (clone_public_key S kp) m2 (S.encode sigObj.inner) =
        false) ∧
    (∀ bs, bs ≠ S.encode sigObj.inner →
      verify_detached S (clone_public_key S kp) m bs = false) := by
  unfold sign_detached at hsig
  cases hs : S.sign kp.inner "" .sha256 m with
  | error e => rw [hs] at hsig; exact absurd hsig (by simp)
  | ok s =>
    rw [hs] at hsig
    simp only [Except.ok.injEq] at hsig
    subst hsig
    refine ⟨?_, fun m2 hm2 => ?_, fun bs hbs => ?_⟩
    · simp [verify_detached, clone_public_key, hDecEnc,
        hCorrect _ _ _ _ _ hs]
    · simp [verify_detached, clone_public_key, hDecEnc,
        hBind _ _ _ _ _ _ hs hm2]
    · simp only [verify_detached, clone_public_key]
      cases hd : S.decode bs with
      | none => rfl
      | some sig2 =>
        have hne : sig2 ≠ s := by
          intro hcontra
          exact hbs (hcontra ▸ hCanon bs sig2 hd)
        exact hUnique _ _ _ _ _ _ hs hne

/-- Witness for C6: in the concrete scheme, signing `[1, 2]` with the key
`5` produces the signature bytes `[5, 1, 2]`, which verify against
`[1, 2]`, fail against the altered message `[9]`, and fail when the
signature bytes are altered to `[5, 1, 2, 3]`. -/
theorem c6_witness :
    verify_detached idealScheme (clone_public_key idealScheme ⟨5⟩) [1, 2]
      [5, 1, 2] = true ∧
    verify_detached idealScheme (clone_public_key idealScheme ⟨5⟩) [9]
      [5, 1, 2] = false ∧
    verify_detached idealScheme (clone_public_key idealScheme ⟨5⟩) [1, 2]
      [5, 1, 2, 3] = false := by
  have hCorrect : ∀ sk ns hg m sig,
      idealScheme.sign sk ns hg m = .ok sig →
      idealScheme.verify (idealScheme.pubOf sk) ns m sig = true := by
    intro sk ns hg m sig hsig
    simp only [idealScheme, Except.ok.injEq] at hsig
    simp [idealScheme, hsig]
  have hDecEnc : ∀ sig,
      idealScheme.decode (idealScheme.encode sig) = some sig :=
    fun _ => rfl
  have hCanon : ∀ bs sig, idealScheme.decode bs = some sig →
      bs = idealScheme.encode sig := by
    intro bs sig hd
    simpa [idealScheme] using hd
  have hUnique : ∀ sk ns hg m sig sig2,
      idealScheme.sign sk ns hg m = .ok sig → sig2 ≠ sig →
      idealScheme.verify (idealScheme.pubOf sk) ns m sig2 = false := by
    intro sk ns hg m sig sig2 hsig hne
    simp only [idealScheme, Except.ok.injEq] at hsig
    subst hsig
    simpa [idealScheme] using hne
  have hBind : ∀ sk ns hg m sig m2,
      idealScheme.sign sk ns hg m = .ok sig → m2 ≠ m →
      idealScheme.verify (idealScheme.pubOf sk) ns m2 sig = false := by
    intro sk ns hg m sig m2 hsig hne
    simp only [idealScheme, Except.ok.injEq] at hsig
    subst hsig
    simp [idealScheme]
    intro hcontra
    exact absurd hcontra.symm hne
  have h := c6_sign_verify_roundtrip idealScheme hCorrect hDecEnc hCanon
    hUnique hBind ⟨5⟩ [1, 2] ⟨[5, 1, 2]⟩ rfl
  exact ⟨h.1, h.2.1 [9] (by decide), h.2.2 [5, 1, 2, 3] (by decide)⟩

/-- C7: whenever the signature bytes given to `verify_detached` do not
decode as a well-formed signature, the result is `false` — a boolean
verification failure, never an error. -/
theorem c7_malformed_signature_is_false {Priv Pub Sig : Type}
    (S : SigScheme Priv Pub Sig) (pk : PublicKey Pub)
    (data bs : List Nat) (hd : S.decode bs = none) :
    verify_detached S pk data bs = false := by
  simp [verify_detached, hd]

/-- Witness for C7: with a decoder rejecting every byte string,
verification of `[1]` as a signature returns `false`. -/
theorem c7_witness :
    verify_detached rejectingDecodeScheme ⟨0⟩ [] [1] = false :=
  c7_malformed_signature_is_false rejectingDecodeScheme ⟨0⟩ [] [1] rfl

/-- C8 counterexample: requesting the unsupported RSA bit length 1234
does not fail with a generation error — with a generator that succeeds
(the real one receives only `Rsa \x7b hash: None \x7d`, which carries no
bit size, so it cannot reject the requested size), generation succeeds,
and the algorithm selected for 1234 bits is the same default selected for
2048 bits. -/
theorem c8_counterexample :
    generate_rsa (fun _ => Except.ok (0 : Nat)) 1234 SignatureHash.SHA2_256 =
      Except.ok ⟨0⟩ ∧
    generate_rsa_algorithm 1234 = generate_rsa_algorithm 2048 :=
  ⟨rfl, rfl⟩

/-- C8 amended: `generate_rsa` maps every requested bit length — supported
or not — to the same default RSA algorithm with no hash override, so the
requested bit length and signature hash are silently ignored, and
generation fails only when the underlying key generation itself fails. -/
theorem c8_bits_ignored {Priv : Type}
    (keygen : Algorithm → Except String Priv) (bits bits2 : Nat)
    (hash hash2 : SignatureHash) :
    generate_rsa keygen bits hash = generate_rsa keygen bits2 hash2 ∧
    generate_rsa_algorithm bits = .rsa none := by
  have halg : ∀ n, generate_rsa_algorithm n = .rsa none := by
    intro n
    unfold generate_rsa_algorithm
    split <;> rfl
  constructor
  · simp [generate_rsa, halg]
  · exact halg bits

/-- C9: `connect` attempts the SSH-agent connection from the process
environment before the transport connection is opened (the agent step
heads every trace), and an agent-connection failure is returned as an
error for every address and configuration, with the transport connection
never attempted. -/
theorem c9_agent_connect_first {γ α β H A : Type}
    (env : ConnectEnv γ α β H A) (addr : String)
    (config : Option (Config γ α β)) :
    ((connect env addr config).2).head? = some ConnectAction.agentConnect ∧
    (∀ e, env.agent = .error e →
      connect env addr config = (.error e, [.agentConnect])) := by
  constructor
  · cases hag : env.agent with
    | error e => simp [connect, hag]
    | ok a =>
      cases ht : env.transport (config.bind (·.client)) addr
          ⟨config.bind (·.check_server_key), config.bind (·.auth_banner)⟩ with
      | error e => simp [connect, hag, ht]
      | ok h => simp [connect, hag, ht]
  · intro e he
    simp [connect, he]

/-- Witness for C9: in an environment whose agent connection fails and
whose transport would succeed, `connect` returns the agent error and the
trace holds the agent step only. -/
theorem c9_witness :
    connect failingAgentEnv "127.0.0.1:22" none =
      (.error "no agent", [.agentConnect]) :=
  (c9_agent_connect_first failingAgentEnv "127.0.0.1:22" none).2
    "no agent" rfl

/-- C10: `set_algorithm` leaves the `PublicKey` completely unchanged for
every signature-hash argument — in particular every observation through
`verify_detached` is unchanged — so the RSA signature-hash override can
never actually be set through the public interface. -/
theorem c10_set_algorithm_noop {Priv Pub Sig : Type}
    (S : SigScheme Priv Pub Sig) (pk : PublicKey Pub)
    (alg : SignatureHash) :
    set_algorithm pk alg = pk ∧
    (∀ data bs, verify_detached S (set_algorithm pk alg) data bs =
      verify_detached S pk data bs) :=
  ⟨rfl, fun _ _ => rfl⟩

end Ssh
